import Mathlib

/-!
# Verification of the GRM rectangular-pulse example script

Shallow embedding of `src/GRM_for_linear_LC.py`, a CADET-Process example
script that configures a General Rate Model column, schedules a rectangular
inlet pulse as two events, and sweeps six Peclet numbers, re-simulating and
plotting each.  Numeric literals are embedded as exact rationals (`ℚ`); the
external simulator and plotting calls are modelled as opaque entries in a
trace of observable effects.
-/

/-- The component system: species are named, order matters for indexing. -/
structure ComponentSystem where
  components : List String
deriving DecidableEq

/-- The script constructs one component system and adds the species `'A'`. -/
def component_system : ComponentSystem := ⟨["A"]⟩

/-- `n_comp` is the number of declared species. -/
def ComponentSystem.n_comp (cs : ComponentSystem) : ℕ := cs.components.length

/-- The Linear binding model: per-species adsorption and desorption rates and
a kinetic-versus-equilibrium flag. -/
structure Linear where
  component_system : ComponentSystem
  name : String
  is_kinetic : Bool
  adsorption_rate : List ℚ
  desorption_rate : List ℚ
deriving DecidableEq

/-- The script's binding model: non-kinetic, `k_a = [2.5]`, `k_d = [1.0]`. -/
def binding_model : Linear :=
  { component_system := component_system
    name := "Linear"
    is_kinetic := false
    adsorption_rate := [5/2]
    desorption_rate := [1] }

/-- Modelled from the spec: the external library derives the number of bound
states from the binding model; for the Linear isotherm each component carries
exactly one bound state, so `n_bound_states = n_comp` (the spec: "here 1"). -/
def Linear.n_bound_states (bm : Linear) : ℕ := bm.component_system.n_comp

/-- The General Rate Model column with its physical parameters. -/
structure GeneralRateModel where
  component_system : ComponentSystem
  name : String
  binding_model : Linear
  length : ℚ
  cross_section_area : ℚ
  bed_porosity : ℚ
  particle_radius : ℚ
  particle_porosity : ℚ
  axial_dispersion : ℚ
  film_diffusion : List ℚ
  pore_diffusion : List ℚ
  surface_diffusion : List ℚ
  c : List ℚ
  q : List ℚ
deriving DecidableEq

/-- `n_comp` of a unit comes from its component system. -/
def GeneralRateModel.n_comp (col : GeneralRateModel) : ℕ :=
  col.component_system.n_comp

/-- `n_bound_states` of the column comes from its binding model. -/
def GeneralRateModel.n_bound_states (col : GeneralRateModel) : ℕ :=
  col.binding_model.n_bound_states

/-- The dispersion value configured at line 71: `3.33e-9`. -/
def configured_axial_dispersion : ℚ := 333 / 10 ^ 11

/-- The interstitial velocity, written `0.3 * (1e-2 / 60)` in the script. -/
def interstitial_velocity : ℚ := 3 / 10 * (1 / 100 / 60)

/-- The script's column.  The script later mutates `column.axial_dispersion`
in place during the sweep; the embedding makes that mutable field an explicit
argument, all other fields being fixed by the script's literal assignments. -/
def column (ax_disp : ℚ) : GeneralRateModel :=
  { component_system := component_system
    name := "column"
    binding_model := binding_model
    length := 17 / 1000
    cross_section_area := 1 / 1000
    bed_porosity := 2 / 5
    particle_radius := 4 / 100000
    particle_porosity := 333 / 1000
    axial_dispersion := ax_disp
    film_diffusion := List.replicate component_system.n_comp (167 / 10 ^ 8)
    pore_diffusion := List.replicate component_system.n_comp (3003 / 10 ^ 9)
    surface_diffusion := List.replicate binding_model.n_bound_states 0
    c := [0]
    q := [0] }

/-- Modelled from the spec: the external library derives the interstitial
cross-sectional area of a column (the spec's "interstitial cross-sectional
area") as the total cross-section area scaled by the bed porosity. -/
def GeneralRateModel.cross_section_area_interstitial (col : GeneralRateModel) : ℚ :=
  col.cross_section_area * col.bed_porosity

/-- An inlet unit: a source boundary condition with a flow rate. -/
structure Inlet where
  component_system : ComponentSystem
  name : String
  flow_rate : ℚ
deriving DecidableEq

/-- The script's inlet: flow rate is the interstitial cross-section area of
the column times the interstitial velocity (line 79). -/
def inlet : Inlet :=
  { component_system := component_system
    name := "inlet"
    flow_rate :=
      (column configured_axial_dispersion).cross_section_area_interstitial *
        (3 / 10 * (1 / 100 / 60)) }

/-- An outlet unit: a pure sink. -/
structure Outlet where
  component_system : ComponentSystem
  name : String
deriving DecidableEq

/-- The script's outlet. -/
def outlet : Outlet := { component_system := component_system, name := "outlet" }

/-- A unit operation of the flow sheet. -/
inductive UnitOperation where
  | inletUnit (i : Inlet)
  | columnUnit (col : GeneralRateModel)
  | outletUnit (o : Outlet)
deriving DecidableEq

/-- The flow sheet: units, directed connections (by unit name), and which
outlets are product outlets. -/
structure FlowSheet where
  component_system : ComponentSystem
  units : List UnitOperation
  product_outlets : List String
  connections : List (String × String)
deriving DecidableEq

/-- The script's flow sheet (lines 85-92), parameterized by the column's
mutable axial dispersion. -/
def flow_sheet (ax_disp : ℚ) : FlowSheet :=
  { component_system := component_system
    units := [.inletUnit inlet, .columnUnit (column ax_disp), .outletUnit outlet]
    product_outlets := ["outlet"]
    connections := [("inlet", "column"), ("column", "outlet")] }

/-- An event: named, addressing a mutable attribute by dotted path, carrying
the value to assign and the time at which to assign it. -/
structure Event where
  name : String
  parameter_path : String
  state : List ℚ
  time : ℚ
deriving DecidableEq

/-- A process: a flow sheet, a total duration, and scheduled events. -/
structure Process where
  flow_sheet : FlowSheet
  name : String
  cycle_time : ℚ
  events : List Event
deriving DecidableEq

/-- `add_event` appends an event.  In the library the `time` argument
defaults to `0` when omitted (the spec: "`time` defaults to 0 if omitted");
the embedding passes the time explicitly, with `0` standing for an omitted
argument. -/
def Process.add_event (p : Process) (name parameter_path : String)
    (state : List ℚ) (time : ℚ) : Process :=
  { p with events := p.events ++ [⟨name, parameter_path, state, time⟩] }

/-- `pulse_duration = 20.0 * 60` seconds. -/
def pulse_duration : ℚ := 20 * 60

/-- The injected pulse concentration, `np.array([1.0])`. -/
def c_pulse : List ℚ := [1]

/-- The baseline concentration, `np.array([0.0])`. -/
def c_initial : List ℚ := [0]

/-- The script's process (lines 97-105): cycle time `100 * 60` seconds and the
two pulse events; the `pulse_start` call omits the time argument. -/
def process (ax_disp : ℚ) : Process :=
  ((({ flow_sheet := flow_sheet ax_disp
       name := "pulse"
       cycle_time := 100 * 60
       events := [] } : Process).add_event
      "pulse_start" "flow_sheet.inlet.c" c_pulse 0).add_event
      "pulse_stop" "flow_sheet.inlet.c" c_initial pulse_duration)

/-- An externally observable effect of running the script: a line printed to
stdout, a (blocking) simulator invocation on a process snapshot, or a plot
rendered (optionally into a numbered panel with a title). -/
inductive Effect where
  | printed (s : String)
  | simulated (p : Process)
  | plotted (panel : Option ℕ) (title : Option String)
deriving DecidableEq

/-- The swept Peclet numbers, in the literal order of line 141. -/
def peclet_numbers : List ℕ := [1, 5, 25, 50, 100, 255]

/-- The sweep's inversion formula (line 143): axial dispersion recomputed
from a target Peclet number as `column.length * (0.3 * (1e-2 / 60)) / pe`. -/
def dispersion_for (pe : ℚ) : ℚ :=
  (column configured_axial_dispersion).length * interstitial_velocity / pe

/-- The Peclet number of a column (line 124): length times interstitial
velocity divided by the axial dispersion. -/
def GeneralRateModel.peclet_number (col : GeneralRateModel) : ℚ :=
  col.length * interstitial_velocity / col.axial_dispersion

/-- The subplot grid created at line 138: `plt.subplots(3, 2)`. -/
def subplot_grid : ℕ × ℕ := (3, 2)

/-- The sweep loop (lines 141-146): a left fold over the enumerated Peclet
numbers, carrying the column's current axial dispersion and the trace of
observable effects.  Each iteration recomputes the dispersion, simulates the
process at that dispersion, and plots into panel `i` with the title
`f"Peclet number: \x7bpe\x7d"`. -/
def sweep : ℚ × List Effect :=
  peclet_numbers.enum.foldl
    (fun acc ipe =>
      let d := dispersion_for (ipe.2 : ℚ)
      (d, acc.2 ++
        [.simulated (process d),
         .plotted (some ipe.1) (some ("Peclet number: " ++ toString ipe.2))]))
    (configured_axial_dispersion, [])

/-- The observable effects of executing the module top to bottom, as a
function of `__name__`.  Line 109 prints `__name__` unconditionally; the
first guarded block (lines 110-115) simulates and plots once; the second
guarded block (lines 133-148) runs the sweep. -/
def script_effects (module_name : String) : List Effect :=
  [.printed module_name] ++
  (if module_name = "__main__" then
      [.simulated (process configured_axial_dispersion), .plotted none none]
    else []) ++
  (if module_name = "__main__" then sweep.2 else [])

/-- C1: for every positive Peclet number `Pe`, the dispersion computed by the
sweep driver equals `(column length × interstitial velocity) / Pe`, and the
round-trip recomputation `Pe' = (length × velocity) / dispersion` (the
`peclet_number` formula of line 124) returns the original `Pe` exactly, under
exact rational arithmetic. -/
theorem C1_peclet_dispersion_roundtrip (pe : ℚ) (hpe : 0 < pe) :
    dispersion_for pe =
      (column configured_axial_dispersion).length * interstitial_velocity / pe ∧
    (column (dispersion_for pe)).peclet_number = pe := by
  refine ⟨rfl, ?_⟩
  have h : pe ≠ 0 := hpe.ne'
  simp only [GeneralRateModel.peclet_number, dispersion_for, column, interstitial_velocity]
  rw [div_div_eq_mul_div, mul_div_assoc, mul_comm]
  exact div_mul_cancel₀ pe (by norm_num)

/-- C1 witness: the round trip at the concrete Peclet number 5. -/
theorem C1_peclet_dispersion_roundtrip_witness :
    (0 : ℚ) < 5 ∧
    (dispersion_for 5 =
      (column configured_axial_dispersion).length * interstitial_velocity / 5 ∧
     (column (dispersion_for 5)).peclet_number = 5) :=
  ⟨by norm_num, C1_peclet_dispersion_roundtrip 5 (by norm_num)⟩

/-- C2: the process carries exactly two events: `pulse_start` targeting
`flow_sheet.inlet.c` with value `c_pulse = [1.0]` at time `0` (the default for
the omitted time argument), and `pulse_stop` targeting `flow_sheet.inlet.c`
with value `c_initial = [0.0]` at time `pulse_duration = 1200` seconds; this
holds whatever the column's current axial dispersion is. -/
theorem C2_pulse_events (d : ℚ) :
    (process d).events =
      [⟨"pulse_start", "flow_sheet.inlet.c", c_pulse, 0⟩,
       ⟨"pulse_stop", "flow_sheet.inlet.c", c_initial, pulse_duration⟩] ∧
    (process d).events.length = 2 ∧
    c_pulse = [1] ∧ c_initial = [0] ∧ pulse_duration = 1200 := by
  norm_num [process, Process.add_event, pulse_duration, c_pulse, c_initial]

/-- C3: the sweep driver iterates the Peclet numbers in the literal order
`[1, 5, 25, 50, 100, 255]`; for the `i`-th value it recomputes the dispersion
by the inversion formula, simulates the process at that dispersion, and plots
into panel `i` of the 3×2 grid with the title `"Peclet number: <pe>"`; and for
any dispersion `d`, the process simulated differs from the originally
configured process only in the column's `axial_dispersion` field. -/
theorem C3_sweep_driver :
    peclet_numbers = [1, 5, 25, 50, 100, 255] ∧
    subplot_grid = (3, 2) ∧
    sweep.2 =
      [.simulated (process (dispersion_for ((1 : ℕ) : ℚ))),
       .plotted (some 0) (some "Peclet number: 1"),
       .simulated (process (dispersion_for ((5 : ℕ) : ℚ))),
       .plotted (some 1) (some "Peclet number: 5"),
       .simulated (process (dispersion_for ((25 : ℕ) : ℚ))),
       .plotted (some 2) (some "Peclet number: 25"),
       .simulated (process (dispersion_for ((50 : ℕ) : ℚ))),
       .plotted (some 3) (some "Peclet number: 50"),
       .simulated (process (dispersion_for ((100 : ℕ) : ℚ))),
       .plotted (some 4) (some "Peclet number: 100"),
       .simulated (process (dispersion_for ((255 : ℕ) : ℚ))),
       .plotted (some 5) (some "Peclet number: 255")] ∧
    ∀ d : ℚ, process d =
      { process configured_axial_dispersion with
          flow_sheet :=
            { flow_sheet configured_axial_dispersion with
                units := [.inletUnit inlet,
                          .columnUnit
                            { column configured_axial_dispersion with
                                axial_dispersion := d },
                          .outletUnit outlet] } } :=
  ⟨rfl, rfl, rfl, fun _ => rfl⟩

/-- C4 counterexample: importing the module (here under the name
`GRM_for_linear_LC`, which differs from `__main__`) is not free of observable
effects: line 109 prints `__name__` to stdout unconditionally, so the effect
trace of an import is nonempty. -/
theorem C4_import_not_effect_free :
    "GRM_for_linear_LC" ≠ "__main__" ∧
    script_effects "GRM_for_linear_LC" ≠ [] := by
  exact ⟨by decide, by simp [script_effects]⟩

/-- C4 amended: when the module is imported (`__name__ ≠ '__main__'`), the
only observable effect is the unguarded `print(__name__)` of line 109; every
simulation and plotting effect is gated by the `__name__ == '__main__'`
guard. -/
theorem C4_import_effects (module_name : String)
    (h : module_name ≠ "__main__") :
    script_effects module_name = [Effect.printed module_name] := by
  simp [script_effects, h]

/-- C4 witness: the amended statement at the concrete module name. -/
theorem C4_import_effects_witness :
    "GRM_for_linear_LC" ≠ "__main__" ∧
    script_effects "GRM_for_linear_LC" = [Effect.printed "GRM_for_linear_LC"] :=
  ⟨by decide, C4_import_effects "GRM_for_linear_LC" (by decide)⟩

/-- C5: with the literal inputs `length = 0.017`, velocity
`0.3 * (1e-2 / 60)` and dispersion `3.33e-9`, the Peclet number of line 124 is
exactly `85000/333` and hence approximately 255 (within `1/3`). -/
theorem C5_peclet_approx_255 :
    (column configured_axial_dispersion).length = 17 / 1000 ∧
    interstitial_velocity = 3 / 10 * (1 / 100 / 60) ∧
    configured_axial_dispersion = 333 / 10 ^ 11 ∧
    (column configured_axial_dispersion).peclet_number = 85000 / 333 ∧
    |(column configured_axial_dispersion).peclet_number - 255| < 1 / 3 := by
  refine ⟨rfl, rfl, rfl, ?_, ?_⟩ <;>
    norm_num [GeneralRateModel.peclet_number, column, interstitial_velocity,
      configured_axial_dispersion, abs_lt]

/-- C6: the inlet's flow rate is the column's interstitial cross-sectional
area times the interstitial velocity `0.3 * (1e-2 / 60)`; numerically it is
`2e-8` m³/s. -/
theorem C6_flow_rate :
    inlet.flow_rate =
      (column configured_axial_dispersion).cross_section_area_interstitial *
        interstitial_velocity ∧
    inlet.flow_rate = 1 / 50000000 := by
  refine ⟨rfl, ?_⟩
  norm_num [inlet, GeneralRateModel.cross_section_area_interstitial, column]

/-- C7: the event times are ordered: `pulse_start` at `0`, strictly before
`pulse_stop` at `pulse_duration = 1200`, which is at most the cycle time
`6000`; every event time lies within `[0, cycle_time]`. -/
theorem C7_event_times_ordered (d : ℚ) :
    (process d).events.map Event.time = [0, pulse_duration] ∧
    (0 : ℚ) < pulse_duration ∧
    pulse_duration ≤ (process d).cycle_time ∧
    (process d).cycle_time = 6000 ∧
    ∀ e ∈ (process d).events, 0 ≤ e.time ∧ e.time ≤ (process d).cycle_time := by
  norm_num [process, Process.add_event, pulse_duration]

/-- C7 witness: the ordering invariant at the configured dispersion. -/
theorem C7_event_times_ordered_witness :
    (process configured_axial_dispersion).events.map Event.time =
      [0, pulse_duration] ∧
    (0 : ℚ) < pulse_duration ∧
    pulse_duration ≤ (process configured_axial_dispersion).cycle_time ∧
    (process configured_axial_dispersion).cycle_time = 6000 ∧
    ∀ e ∈ (process configured_axial_dispersion).events,
      0 ≤ e.time ∧ e.time ≤ (process configured_axial_dispersion).cycle_time :=
  C7_event_times_ordered configured_axial_dispersion

/-- C8: with `n_comp = 1`, the per-species arrays `film_diffusion` and
`pore_diffusion` each have length 1, and `surface_diffusion` has length
`n_bound_states` (here 1). -/
theorem C8_array_lengths :
    (column configured_axial_dispersion).n_comp = 1 ∧
    (column configured_axial_dispersion).film_diffusion.length = 1 ∧
    (column configured_axial_dispersion).pore_diffusion.length = 1 ∧
    (column configured_axial_dispersion).surface_diffusion.length =
      (column configured_axial_dispersion).n_bound_states ∧
    (column configured_axial_dispersion).n_bound_states = 1 :=
  ⟨rfl, rfl, rfl, rfl, rfl⟩

/-- C9: after all six sweep iterations the column's axial dispersion holds the
value computed for the last Peclet number 255, namely
`(0.017 × 0.3 × (1e-2 / 60)) / 255 = 1/300000000`, which differs from the
originally configured `3.33e-9`; it is never restored. -/
theorem C9_final_dispersion :
    sweep.1 = dispersion_for ((255 : ℕ) : ℚ) ∧
    sweep.1 = 17 / 1000 * (3 / 10 * (1 / 100 / 60)) / 255 ∧
    sweep.1 = 1 / 300000000 ∧
    sweep.1 ≠ configured_axial_dispersion := by
  refine ⟨rfl, ?_, ?_, ?_⟩ <;>
    norm_num [sweep, peclet_numbers, dispersion_for, column,
      interstitial_velocity, configured_axial_dispersion, List.enum]

/-- C10: the binding model is non-kinetic with adsorption rate `[2.5]` and
desorption rate `[1.0]`, so the equilibrium constant of the single species is
`2.5`; the column's initial bulk and solid-phase concentrations are both
`[0.0]`, and the scheduled pulse value `c_pulse = [1.0]` is the only nonzero
concentration introduced. -/
theorem C10_binding_and_initial_state :
    binding_model.is_kinetic = false ∧
    binding_model.adsorption_rate = [5 / 2] ∧
    binding_model.desorption_rate = [1] ∧
    binding_model.adsorption_rate.zipWith (fun ka kd => ka / kd)
      binding_model.desorption_rate = [5 / 2] ∧
    (column configured_axial_dispersion).c = [0] ∧
    (column configured_axial_dispersion).q = [0] ∧
    c_pulse = [1] ∧ c_initial = [0] := by
  norm_num [binding_model, column, c_pulse, c_initial]
